import Mathlib

/-!
# Verification of the Mancala tournament server's move and orchestration logic

Shallow embedding of `src/server.js` (LeeAdcock/mancala-tournament).

The board is a JS array of 14 numbers, embedded as `List Nat`.
Indices 0-5 are side A's (player 1's) pits, 6 is side A's store,
7-12 are side B's (player 2's) pits, 13 is side B's store.
-/

namespace Mancala

/-- The opponent's store, which sowing skips (server.js line 271:
`if ((isPlayer1 && idx === 13) || (!isPlayer1 && idx === 6)) continue;`). -/
def skipIdx (isPlayer1 : Bool) : Nat := if isPlayer1 then 13 else 6

/-- The mover's own store (server.js line 278:
`(isPlayer1 && idx === 6) || (!isPlayer1 && idx === 13)`). -/
def storeIdx (isPlayer1 : Bool) : Nat := if isPlayer1 then 6 else 13

/-- `board[idx]++` of server.js line 272, total via `getD` with default 0. -/
def bump (b : List Nat) (i : Nat) : List Nat := b.set i (b.getD i 0 + 1)

/-- The next slot a stone is dropped into: advance one slot wrapping mod 14
(line 269) and, if that slot is the opponent's store, advance once more
(the `continue` of line 271; the slot after a store is never itself a store). -/
def nextIdx (isPlayer1 : Bool) (idx : Nat) : Nat :=
  if (idx + 1) % 14 = skipIdx isPlayer1 then ((idx + 1) % 14 + 1) % 14
  else (idx + 1) % 14

/-- The sowing loop of server.js lines 268-274 (`while (stones > 0) {...}`),
recursing on the remaining stone count.  Returns the board together with the
index of the slot the last stone landed in (the loop's final `idx`). -/
def sow (isPlayer1 : Bool) : List Nat → Nat → Nat → List Nat × Nat
  | b, idx, 0 => (b, idx)
  | b, idx, stones + 1 =>
    let j := nextIdx isPlayer1 idx
    sow isPlayer1 (bump b j) j stones

/-- `board.slice(0, 6).every(x => x === 0)` (server.js line 287). -/
def player1Empty (b : List Nat) : Bool := (b.take 6).all (· == 0)

/-- `board.slice(7, 13).every(x => x === 0)` (server.js line 288). -/
def player2Empty (b : List Nat) : Bool := ((b.drop 7).take 6).all (· == 0)

/-- JS `Array.prototype.fill(0, start, stop)`: zero the entries at indices
`start ≤ i < stop`, leaving the rest; used at server.js lines 294-295. -/
def fill0 : List Nat → Nat → Nat → List Nat
  | [], _, _ => []
  | x :: xs, 0, 0 => x :: xs
  | _ :: xs, 0, stop + 1 => 0 :: fill0 xs 0 stop
  | x :: xs, _ + 1, 0 => x :: xs
  | x :: xs, start + 1, stop + 1 => x :: fill0 xs start stop

/-- The end-of-game sweep of server.js lines 292-295, in the source's
mutation order: `board[6] += sum(board.slice(0,6))`, then
`board[13] += sum(board.slice(7,13))`, then `board.fill(0,0,6)` and
`board.fill(0,7,13)`. -/
def sweep (b : List Nat) : List Nat :=
  let b1 := b.set 6 (b.getD 6 0 + (b.take 6).sum)
  let b2 := b1.set 13 (b1.getD 13 0 + ((b1.drop 7).take 6).sum)
  fill0 (fill0 b2 0 6) 7 13

/-- Result of the move logic of server.js lines 263-297: the new board, the
slot the last stone landed in, whether the mover keeps the turn
(lines 277-284), and whether the game is finished (lines 286-296). -/
structure EngineResult where
  board : List Nat
  lastIdx : Nat
  extraTurn : Bool
  finished : Bool
deriving DecidableEq, Repr

/-- The move logic of server.js lines 263-297: `stones = board[pit]`,
`board[pit] = 0`, sow, extra-turn test, end-of-game test and sweep. -/
def applyMove (isPlayer1 : Bool) (board : List Nat) (pit : Nat) : EngineResult :=
  let stones := board.getD pit 0
  let b0 := board.set pit 0
  let s := sow isPlayer1 b0 pit stones
  let extra := (isPlayer1 && s.2 == 6) || (!isPlayer1 && s.2 == 13)
  if player1Empty s.1 || player2Empty s.1 then
    ⟨sweep s.1, s.2, extra, true⟩
  else
    ⟨s.1, s.2, extra, false⟩

/-- The pit-ownership validation of server.js lines 257-259: side A owns
pits 0-5, side B owns pits 7-12. -/
def ownsPit (isPlayer1 : Bool) (pit : Nat) : Bool :=
  let pitStart := if isPlayer1 then 0 else 7
  let pitEnd := if isPlayer1 then 5 else 12
  pitStart ≤ pit && pit ≤ pitEnd

/-- The next-turn selection of server.js lines 276-284: the mover keeps the
turn iff the last stone landed in the mover's own store, otherwise the turn
passes to `game.playerIds[1 - playerIdx]`. -/
def nextTurn (mover opponent : String) (isPlayer1 : Bool) (lastIdx : Nat) : String :=
  if (isPlayer1 && lastIdx == 6) || (!isPlayer1 && lastIdx == 13) then mover else opponent

/-- The initial board of server.js line 172. -/
def initialBoard : List Nat := [4, 4, 4, 4, 4, 4, 0, 4, 4, 4, 4, 4, 4, 0]

/-- The board after server.js lines 263-274 (pit zeroed and stones sown),
before the end-of-game check of line 286. -/
def postSowBoard (isPlayer1 : Bool) (board : List Nat) (pit : Nat) : List Nat :=
  (sow isPlayer1 (board.set pit 0) pit (board.getD pit 0)).1

/-! ## Arithmetic facts about the embedding -/

/-- Writing `v` into position `i` changes the sum by replacing the old entry:
`(b.set i v).sum + b[i] = b.sum + v` whenever `i` is in bounds. -/
theorem sum_set_getD (b : List Nat) (i v : Nat) (h : i < b.length) :
    (b.set i v).sum + b.getD i 0 = b.sum + v := by
  induction b generalizing i with
  | nil => simp at h
  | cons x xs ih =>
    cases i with
    | zero => simp [List.set]; omega
    | succ n =>
      have h' : n < xs.length := by simpa using h
      have := ih n h'
      simp only [List.set, List.sum_cons, List.getD_cons_succ]
      omega

/-- `bump` adds exactly one stone when the index is in bounds. -/
theorem sum_bump (b : List Nat) (i : Nat) (h : i < b.length) :
    (bump b i).sum = b.sum + 1 := by
  have := sum_set_getD b i (b.getD i 0 + 1) h
  unfold bump
  omega

theorem length_bump (b : List Nat) (i : Nat) : (bump b i).length = b.length := by
  simp [bump]

theorem getD_set_ne (b : List Nat) (i j v : Nat) (h : i ≠ j) :
    (b.set i v).getD j 0 = b.getD j 0 := by
  simp [List.getD_eq_getElem?_getD, List.getElem?_set_ne h]

theorem nextIdx_lt (isPlayer1 : Bool) (idx : Nat) : nextIdx isPlayer1 idx < 14 := by
  unfold nextIdx
  split <;> omega

theorem nextIdx_ne_skip (isPlayer1 : Bool) (idx : Nat) :
    nextIdx isPlayer1 idx ≠ skipIdx isPlayer1 := by
  unfold nextIdx
  by_cases h : (idx + 1) % 14 = skipIdx isPlayer1
  · rw [if_pos h, h]
    cases isPlayer1 <;> decide
  · rw [if_neg h]
    exact h

theorem sow_length (isPlayer1 : Bool) (stones : Nat) :
    ∀ b idx, (sow isPlayer1 b idx stones).1.length = b.length := by
  induction stones with
  | zero => intro b idx; rfl
  | succ n ih =>
    intro b idx
    simp only [sow]
    rw [ih]
    exact length_bump ..

/-- Sowing `stones` stones adds exactly `stones` to the board total. -/
theorem sow_sum (isPlayer1 : Bool) (stones : Nat) :
    ∀ b idx, b.length = 14 → (sow isPlayer1 b idx stones).1.sum = b.sum + stones := by
  induction stones with
  | zero => intro b idx _; rfl
  | succ n ih =>
    intro b idx hb
    simp only [sow]
    rw [ih _ _ (by rw [length_bump]; exact hb)]
    rw [sum_bump _ _ (by rw [hb]; exact nextIdx_lt ..)]
    omega

/-- Sowing never touches the slot it skips: the opponent's store is unchanged. -/
theorem sow_skip_const (isPlayer1 : Bool) (stones : Nat) :
    ∀ b idx, (sow isPlayer1 b idx stones).1.getD (skipIdx isPlayer1) 0
      = b.getD (skipIdx isPlayer1) 0 := by
  induction stones with
  | zero => intro b idx; rfl
  | succ n ih =>
    intro b idx
    simp only [sow]
    rw [ih]
    exact getD_set_ne _ _ _ _ (nextIdx_ne_skip isPlayer1 idx)

/-- Any list of length 14 is literally a 14-element list. -/
theorem eq_of_length14 (b : List Nat) (h : b.length = 14) :
    ∃ a0 a1 a2 a3 a4 a5 a6 a7 a8 a9 a10 a11 a12 a13 : Nat,
      b = [a0, a1, a2, a3, a4, a5, a6, a7, a8, a9, a10, a11, a12, a13] := by
  rcases b with _ | ⟨a0, b⟩; · simp at h
  rcases b with _ | ⟨a1, b⟩; · simp at h
  rcases b with _ | ⟨a2, b⟩; · simp at h
  rcases b with _ | ⟨a3, b⟩; · simp at h
  rcases b with _ | ⟨a4, b⟩; · simp at h
  rcases b with _ | ⟨a5, b⟩; · simp at h
  rcases b with _ | ⟨a6, b⟩; · simp at h
  rcases b with _ | ⟨a7, b⟩; · simp at h
  rcases b with _ | ⟨a8, b⟩; · simp at h
  rcases b with _ | ⟨a9, b⟩; · simp at h
  rcases b with _ | ⟨a10, b⟩; · simp at h
  rcases b with _ | ⟨a11, b⟩; · simp at h
  rcases b with _ | ⟨a12, b⟩; · simp at h
  rcases b with _ | ⟨a13, b⟩; · simp at h
  rcases b with _ | ⟨a14, b⟩
  · exact ⟨a0, a1, a2, a3, a4, a5, a6, a7, a8, a9, a10, a11, a12, a13, rfl⟩
  · simp at h

/-- The sweep written out on an explicit 14-slot board. -/
theorem sweep_explicit (a0 a1 a2 a3 a4 a5 a6 a7 a8 a9 a10 a11 a12 a13 : Nat) :
    sweep [a0, a1, a2, a3, a4, a5, a6, a7, a8, a9, a10, a11, a12, a13] =
      [0, 0, 0, 0, 0, 0, a6 + (a0 + a1 + a2 + a3 + a4 + a5), 0, 0, 0, 0, 0, 0,
        a13 + (a7 + a8 + a9 + a10 + a11 + a12)] := by
  simp only [sweep, fill0]
  norm_num [List.set]
  constructor <;> omega

/-- The sweep on a 14-slot board: pointwise description and sum preservation.
Each store receives its own side's pit total, all twelve pits become zero,
and no stone is created or destroyed. -/
theorem sweep_spec (b : List Nat) (h : b.length = 14) :
    (sweep b).getD 6 0 = b.getD 6 0 + (b.take 6).sum ∧
    (sweep b).getD 13 0 = b.getD 13 0 + ((b.drop 7).take 6).sum ∧
    (sweep b).take 6 = [0, 0, 0, 0, 0, 0] ∧
    ((sweep b).drop 7).take 6 = [0, 0, 0, 0, 0, 0] ∧
    (sweep b).sum = b.sum := by
  obtain ⟨a0, a1, a2, a3, a4, a5, a6, a7, a8, a9, a10, a11, a12, a13, rfl⟩ :=
    eq_of_length14 b h
  rw [sweep_explicit]
  refine ⟨?_, ?_, rfl, rfl, ?_⟩ <;> simp [List.sum_cons, List.sum_nil] <;> omega

theorem ownsPit_lt (isPlayer1 : Bool) (pit : Nat) (h : ownsPit isPlayer1 pit = true) :
    pit < 14 := by
  unfold ownsPit at h
  cases isPlayer1 <;> simp at h <;> omega

theorem postSowBoard_length (isPlayer1 : Bool) (b : List Nat) (pit : Nat)
    (hlen : b.length = 14) : (postSowBoard isPlayer1 b pit).length = 14 := by
  unfold postSowBoard
  rw [sow_length]
  simpa using hlen

/-! ## Claim theorems for the Move Engine -/

/-- C1: for every board of 14 non-negative integers summing to 48 and every
valid pit (owned by the mover and non-empty), applying one move — zeroing the
pit, sowing its stones, and performing the end-of-game sweep when triggered —
yields a board whose 14 values again sum to 48. -/
theorem stone_conservation (isPlayer1 : Bool) (b : List Nat) (pit : Nat)
    (hlen : b.length = 14) (hsum : b.sum = 48)
    (hown : ownsPit isPlayer1 pit = true) (hne : b.getD pit 0 ≠ 0) :
    (applyMove isPlayer1 b pit).board.sum = 48 := by
  have hpit : pit < 14 := ownsPit_lt isPlayer1 pit hown
  have h0 : (b.set pit 0).length = 14 := by simpa using hlen
  have hset := sum_set_getD b pit 0 (by omega)
  have hsow := sow_sum isPlayer1 (b.getD pit 0) (b.set pit 0) pit h0
  have hslen : (sow isPlayer1 (b.set pit 0) pit (b.getD pit 0)).1.length = 14 := by
    rw [sow_length]
    exact h0
  have hsweep := (sweep_spec _ hslen).2.2.2.2
  unfold applyMove
  dsimp only
  split <;> dsimp only <;> omega

/-- C1 witness: the conservation theorem applied to the initial board with
side A playing pit 0. -/
theorem stone_conservation_witness :
    initialBoard.length = 14 ∧ initialBoard.sum = 48 ∧
    ownsPit true 0 = true ∧ initialBoard.getD 0 0 ≠ 0 ∧
    (applyMove true initialBoard 0).board.sum = 48 :=
  ⟨by decide, by decide, by decide, by decide,
    stone_conservation true initialBoard 0 (by decide) (by decide) (by decide)
      (by decide)⟩

/-- C4: after sowing, if either side's six pits are all zero then the sweep
runs: the status becomes finished, each store equals its pre-sweep value plus
that side's pit total, and all twelve pits become zero; otherwise the status
stays active and the board is exactly the post-sow board. -/
theorem end_game_sweep (isPlayer1 : Bool) (b : List Nat) (pit : Nat)
    (hlen : b.length = 14) :
    ((player1Empty (postSowBoard isPlayer1 b pit)
        || player2Empty (postSowBoard isPlayer1 b pit)) = true →
      (applyMove isPlayer1 b pit).finished = true ∧
      (applyMove isPlayer1 b pit).board.getD 6 0
        = (postSowBoard isPlayer1 b pit).getD 6 0
            + ((postSowBoard isPlayer1 b pit).take 6).sum ∧
      (applyMove isPlayer1 b pit).board.getD 13 0
        = (postSowBoard isPlayer1 b pit).getD 13 0
            + (((postSowBoard isPlayer1 b pit).drop 7).take 6).sum ∧
      (applyMove isPlayer1 b pit).board.take 6 = [0, 0, 0, 0, 0, 0] ∧
      ((applyMove isPlayer1 b pit).board.drop 7).take 6 = [0, 0, 0, 0, 0, 0]) ∧
    ((player1Empty (postSowBoard isPlayer1 b pit)
        || player2Empty (postSowBoard isPlayer1 b pit)) = false →
      (applyMove isPlayer1 b pit).finished = false ∧
      (applyMove isPlayer1 b pit).board = postSowBoard isPlayer1 b pit) := by
  have hslen : (postSowBoard isPlayer1 b pit).length = 14 :=
    postSowBoard_length isPlayer1 b pit hlen
  have hsw := sweep_spec _ hslen
  unfold applyMove
  unfold postSowBoard at hsw ⊢
  constructor
  · intro hcond
    rw [if_pos hcond]
    exact ⟨rfl, hsw.1, hsw.2.1, hsw.2.2.1, hsw.2.2.2.1⟩
  · intro hcond
    rw [if_neg (by rw [hcond]; simp)]
    exact ⟨rfl, rfl⟩

/-- C4 witness: side A empties its pits by playing its last stone into the
store; the sweep theorem applied at that concrete board. -/
theorem end_game_sweep_witness :
    ([0, 0, 0, 0, 0, 1, 20, 1, 1, 1, 1, 1, 2, 20] : List Nat).length = 14 ∧
    (player1Empty (postSowBoard true [0, 0, 0, 0, 0, 1, 20, 1, 1, 1, 1, 1, 2, 20] 5)
      || player2Empty (postSowBoard true [0, 0, 0, 0, 0, 1, 20, 1, 1, 1, 1, 1, 2, 20] 5))
      = true ∧
    (applyMove true [0, 0, 0, 0, 0, 1, 20, 1, 1, 1, 1, 1, 2, 20] 5).finished = true ∧
    (applyMove true [0, 0, 0, 0, 0, 1, 20, 1, 1, 1, 1, 1, 2, 20] 5).board
      = [0, 0, 0, 0, 0, 0, 21, 0, 0, 0, 0, 0, 0, 27] :=
  ⟨by decide, by decide,
    ((end_game_sweep true [0, 0, 0, 0, 0, 1, 20, 1, 1, 1, 1, 1, 2, 20] 5
        (by decide)).1 (by decide)).1,
    by decide⟩

/-- Abstract mover identifier used in concrete instances. -/
def moverId : String := "player-a"

/-- Abstract opponent identifier used in concrete instances. -/
def opponentId : String := "player-b"

/-- C5: for every valid move, the next turn belongs to the mover exactly when
the last sown stone lands in the mover's own store (index 6 for side A, 13 for
side B), and otherwise to the opponent; moreover sowing never places a stone
in the opponent's store (index 13 is skipped while side A sows, index 6 while
side B sows), so that store is unchanged by the sowing phase. -/
theorem extra_turn_law (isPlayer1 : Bool) (b : List Nat) (pit : Nat)
    (mover opponent : String) (hown : ownsPit isPlayer1 pit = true) :
    ((applyMove isPlayer1 b pit).lastIdx = storeIdx isPlayer1 →
      nextTurn mover opponent isPlayer1 (applyMove isPlayer1 b pit).lastIdx
        = mover) ∧
    ((applyMove isPlayer1 b pit).lastIdx ≠ storeIdx isPlayer1 →
      nextTurn mover opponent isPlayer1 (applyMove isPlayer1 b pit).lastIdx
        = opponent) ∧
    (postSowBoard isPlayer1 b pit).getD (skipIdx isPlayer1) 0
      = b.getD (skipIdx isPlayer1) 0 := by
  refine ⟨?_, ?_, ?_⟩
  · intro h
    rw [h]
    cases isPlayer1 <;> simp [nextTurn, storeIdx]
  · intro h
    unfold nextTurn
    rw [if_neg]
    intro hcontra
    apply h
    cases isPlayer1 <;> simp_all [storeIdx]
  · unfold postSowBoard
    rw [sow_skip_const]
    refine getD_set_ne _ _ _ _ ?_
    unfold ownsPit at hown
    unfold skipIdx
    cases isPlayer1 <;> simp_all <;> omega

/-- C5 witness: side A playing pit 2 of the initial board lands the last
stone in its own store and keeps the turn; side B's store is untouched. -/
theorem extra_turn_law_witness :
    ownsPit true 2 = true ∧
    (applyMove true initialBoard 2).lastIdx = storeIdx true ∧
    nextTurn moverId opponentId true (applyMove true initialBoard 2).lastIdx
      = moverId ∧
    (postSowBoard true initialBoard 2).getD (skipIdx true) 0
      = initialBoard.getD (skipIdx true) 0 :=
  ⟨by decide, by decide,
    (extra_turn_law true initialBoard 2 moverId opponentId (by decide)).1
      (by decide),
    (extra_turn_law true initialBoard 2 moverId opponentId (by decide)).2.2⟩

/-- C6 counterexample: the spec scenario claims side A playing pit 0 of the
initial board yields `[0,5,5,5,5,4,1,4,4,4,4,4,4,0]` with the turn staying
with side A; the code produces neither that board nor an extra turn (the
claimed board holds 49 stones and is unreachable). -/
theorem scenario_pit0_counterexample :
    ¬ ((applyMove true initialBoard 0).board
        = [0, 5, 5, 5, 5, 4, 1, 4, 4, 4, 4, 4, 4, 0] ∧
      (applyMove true initialBoard 0).extraTurn = true) := by
  decide

/-- C6 amended: side A playing pit 0 (4 stones) of the initial board yields
`[0,5,5,5,5,4,0,4,4,4,4,4,4,0]`; the last stone lands in pit 4, not the
store, so there is no extra turn and the turn passes to the opponent. -/
theorem scenario_pit0_amended :
    (applyMove true initialBoard 0).board
      = [0, 5, 5, 5, 5, 4, 0, 4, 4, 4, 4, 4, 4, 0] ∧
    (applyMove true initialBoard 0).lastIdx = 4 ∧
    (applyMove true initialBoard 0).extraTurn = false ∧
    (applyMove true initialBoard 0).finished = false ∧
    nextTurn moverId opponentId true (applyMove true initialBoard 0).lastIdx
      = opponentId := by
  decide

/-! ## The sowing loop, iteration by iteration

For the termination claim, the `while (stones > 0)` loop of server.js
lines 268-274 is modelled one iteration at a time, exactly as written:
advance the cursor, then either skip (opponent's store, no decrement) or
drop a stone (decrement). -/

/-- State of the sowing while-loop: the board, the cursor `idx`, and the
remaining `stones`. -/
structure SowState where
  board : List Nat
  idx : Nat
  stones : Nat
deriving DecidableEq, Repr

/-- One iteration of the while-loop of server.js lines 268-274.  When the
loop guard `stones > 0` fails this is the identity (the loop has exited). -/
def sowLoopStep (isPlayer1 : Bool) (s : SowState) : SowState :=
  if s.stones = 0 then s
  else
    if (s.idx + 1) % 14 = skipIdx isPlayer1 then
      ⟨s.board, (s.idx + 1) % 14, s.stones⟩
    else
      ⟨bump s.board ((s.idx + 1) % 14), (s.idx + 1) % 14, s.stones - 1⟩

theorem sowLoopStep_of_zero (isPlayer1 : Bool) (s : SowState) (h : s.stones = 0) :
    sowLoopStep isPlayer1 s = s := by
  unfold sowLoopStep
  rw [if_pos h]

theorem sowLoopStep_iterate_of_zero (isPlayer1 : Bool) (k : Nat) :
    ∀ s : SowState, s.stones = 0 → (sowLoopStep isPlayer1)^[k] s = s := by
  induction k with
  | zero => intro s _; rfl
  | succ n ih =>
    intro s h
    rw [Function.iterate_succ_apply, sowLoopStep_of_zero isPlayer1 s h, ih s h]

/-- Iterating the loop body `2 * stones` times (or more) drains all stones
and computes exactly what `sow` computes: a skipped slot is never followed by
another skipped slot, so at most every second iteration is a skip. -/
theorem sowLoop_eq_sow (isPlayer1 : Bool) (n : Nat) :
    ∀ (s : SowState) (k : Nat), s.stones = n → 2 * n ≤ k →
      (sowLoopStep isPlayer1)^[k] s
        = ⟨(sow isPlayer1 s.board s.idx n).1, (sow isPlayer1 s.board s.idx n).2, 0⟩ := by
  induction n with
  | zero =>
    intro s k h _
    rw [sowLoopStep_iterate_of_zero isPlayer1 k s h]
    exact (SowState.mk.injEq ..).mpr ⟨rfl, rfl, h⟩
  | succ n ih =>
    intro s k h hk
    obtain ⟨k1, rfl⟩ : ∃ k1, k = k1 + 1 := ⟨k - 1, by omega⟩
    rw [Function.iterate_succ_apply]
    by_cases hskip : (s.idx + 1) % 14 = skipIdx isPlayer1
    · have hstep : sowLoopStep isPlayer1 s = ⟨s.board, (s.idx + 1) % 14, n + 1⟩ := by
        unfold sowLoopStep
        rw [if_neg (by omega), if_pos hskip]
        rw [h]
      rw [hstep]
      obtain ⟨k2, rfl⟩ : ∃ k2, k1 = k2 + 1 := ⟨k1 - 1, by omega⟩
      rw [Function.iterate_succ_apply]
      have hskip2 : ¬ ((s.idx + 1) % 14 + 1) % 14 = skipIdx isPlayer1 := by
        rw [hskip]
        cases isPlayer1 <;> decide
      have hstep2 : sowLoopStep isPlayer1 ⟨s.board, (s.idx + 1) % 14, n + 1⟩
          = ⟨bump s.board (((s.idx + 1) % 14 + 1) % 14), ((s.idx + 1) % 14 + 1) % 14, n⟩ := by
        unfold sowLoopStep
        rw [if_neg (by simp), if_neg hskip2]
        rfl
      rw [hstep2]
      have hiter := ih ⟨bump s.board (((s.idx + 1) % 14 + 1) % 14),
          ((s.idx + 1) % 14 + 1) % 14, n⟩ k2 rfl (by omega)
      rw [hiter]
      have hsow : sow isPlayer1 s.board s.idx (n + 1)
          = sow isPlayer1 (bump s.board (((s.idx + 1) % 14 + 1) % 14))
              (((s.idx + 1) % 14 + 1) % 14) n := by
        show sow isPlayer1 (bump s.board (nextIdx isPlayer1 s.idx))
            (nextIdx isPlayer1 s.idx) n = _
        rw [show nextIdx isPlayer1 s.idx = ((s.idx + 1) % 14 + 1) % 14 by
          unfold nextIdx; rw [if_pos hskip]]
      dsimp only
      rw [hsow]
    · have hstep : sowLoopStep isPlayer1 s
          = ⟨bump s.board ((s.idx + 1) % 14), (s.idx + 1) % 14, n⟩ := by
        unfold sowLoopStep
        rw [if_neg (by omega), if_neg hskip]
        rw [h]
        rfl
      rw [hstep]
      have hiter := ih ⟨bump s.board ((s.idx + 1) % 14), (s.idx + 1) % 14, n⟩ k1 rfl
        (by omega)
      rw [hiter]
      have hsow : sow isPlayer1 s.board s.idx (n + 1)
          = sow isPlayer1 (bump s.board ((s.idx + 1) % 14)) ((s.idx + 1) % 14) n := by
        show sow isPlayer1 (bump s.board (nextIdx isPlayer1 s.idx))
            (nextIdx isPlayer1 s.idx) n = _
        rw [show nextIdx isPlayer1 s.idx = (s.idx + 1) % 14 by
          unfold nextIdx; rw [if_neg hskip]]
      dsimp only
      rw [hsow]

/-- C10: the sowing loop terminates for every board and starting state: since
the single skipped slot is never followed by another skipped slot, iterating
the loop body `2 * stones` times always drains the stone count to zero, and
the drained board is exactly the one computed by the total function `sow`. -/
theorem sowing_loop_terminates (isPlayer1 : Bool) (b : List Nat) (idx stones : Nat) :
    ((sowLoopStep isPlayer1)^[2 * stones] ⟨b, idx, stones⟩).stones = 0 ∧
    ((sowLoopStep isPlayer1)^[2 * stones] ⟨b, idx, stones⟩).board
      = (sow isPlayer1 b idx stones).1 := by
  rw [sowLoop_eq_sow isPlayer1 stones ⟨b, idx, stones⟩ (2 * stones) rfl (le_refl _)]
  exact ⟨rfl, rfl⟩

/-! ## The orchestrator: persisted records and the two HTTP operations

The DynamoDB tables `Players`, `ActivePlayers` and `ActiveGames` are
embedded as lists inside a `Db` value; the store itself is an external
collaborator, so a fetch keyed by the attribute the code supplies is
modelled as a lookup on that attribute.  JavaScript runtime errors that the
handlers actually raise (references to unbound identifiers, reads of
`const` bindings inside their temporal dead zone, assignment to a `const`)
are modelled explicitly: a request that raises one produces a `crashed`
result and leaves the store untouched, since the raise happens before any
write command is issued. -/

/-- Match status, stored as the strings `active` / `finished` in the code. -/
inductive Status where
  | active
  | finished
deriving DecidableEq, Repr

/-- A Move record as appended at server.js lines 391-397. -/
structure Move where
  turnId : String
  board : List Nat
  player : String
  pit : Nat
  timestamp : String
deriving DecidableEq, Repr

/-- The mutable part of a match record (`game.state`). -/
structure GameState where
  board : List Nat
  turn : String
  status : Status
deriving DecidableEq, Repr

/-- A match record as created at server.js lines 166-178. -/
structure Game where
  id : String
  turnId : String
  playerIds : List String
  state : GameState
  history : List Move
  createdAt : String
deriving DecidableEq, Repr

/-- A player record as created at server.js lines 52-59 (credential and
creation timestamp omitted: no claim observes them). -/
structure Player where
  id : String
  score : Int
  wins : Nat
  losses : Nat
  lastPlayedAt : String
deriving DecidableEq, Repr

/-- The three DynamoDB tables. -/
structure Db where
  players : List Player
  activePlayers : List String
  activeGames : List Game
deriving DecidableEq, Repr

/-- The JavaScript runtime errors the two handlers raise. -/
inductive JsRuntimeError where
  /-- server.js line 213: `game.playerIds` is read before any declaration of
  `game`; the only `game` in the file is the `const` of line 238 inside the
  later try block, which is not in scope here. -/
  | gameNotDefined
  /-- server.js line 315: `updatedState` and `history` are the `const`
  bindings of lines 398-405, still in their temporal dead zone when the
  finished-game emit of line 315 reads them. -/
  | updatedStateTDZ
  /-- server.js line 409: `gameId` is not declared anywhere in the
  move-submission handler (it is local to the other route). -/
  | gameIdNotDefined
  /-- server.js line 201: the response object shorthand `{ turnId, board }`
  reads an identifier `turnId` that is not declared in the turn handler. -/
  | turnIdNotDefined
  /-- server.js line 185: `turnGames = [newGame]` assigns to the `const`
  binding of line 142. -/
  | constReassignment
deriving DecidableEq, Repr

/-- The synchronous failure responses of the two handlers. -/
inductive ApiFailure where
  | turnNotFound
  | notParticipant
  | notYourTurn
  | invalidPit
  | tooManyActiveTurns
  | noOpponent
deriving DecidableEq, Repr

/-- HTTP status code of each failure response. -/
def ApiFailure.statusCode : ApiFailure → Nat
  | .turnNotFound => 404
  | .notParticipant => 403
  | .notYourTurn => 400
  | .invalidPit => 400
  | .tooManyActiveTurns => 429
  | .noOpponent => 400

/-- Result of one handler invocation. -/
inductive ApiResult where
  | okNull
  | okTurn (turnId : String) (board : List Nat)
  | failure (f : ApiFailure)
  | crashed (e : JsRuntimeError)
deriving DecidableEq, Repr

/-- JavaScript `Array.prototype.indexOf` on an array of strings: index of the
first occurrence, `-1` when absent. -/
def jsIndexOf (x : String) : List String → Int
  | [] => -1
  | y :: ys =>
    if y == x then 0
    else if jsIndexOf x ys == -1 then -1 else jsIndexOf x ys + 1

/-- The board rotation of server.js lines 194-199 and 474-479:
`[...board.slice(7,13), board[13], ...board.slice(0,6), board[6]]`. -/
def flipBoard (b : List Nat) : List Nat :=
  ((b.drop 7).take 6) ++ [b.getD 13 0] ++ (b.take 6) ++ [b.getD 6 0]

/-- The handler of `GET /players/:playerId/turns` (server.js lines 118-206).
`newGameId`, `newTurnId` and `now` stand for the externally produced
`randomUUID()` values and timestamp; `pickOpp` and `pickGame` resolve the two
`Math.random()` selections (reduced modulo the candidate count).

Control flow of the source: register the caller in `ActivePlayers`
(conditional put, lines 123-130); query the caller's games (133-138); filter
to games where it is the caller's turn (141-142, a `const` binding); if none,
check the `> 10` ceiling (146-149), pick an opponent among the other active
players (152-162, failing when there are none, 157-159), build and persist a
fresh match (164-183) — and then line 185 assigns to the `const`
`turnGames`, raising `TypeError: Assignment to constant variable`, so the
handler answers 500 *after* having persisted the new match.  When a
turn-ready game exists, lines 188-200 pick one and compute its flipped
board, and line 201 then reads the undeclared identifier `turnId`, raising a
ReferenceError, so this path answers 500 as well. -/
def getTurn (db : Db) (playerId newGameId newTurnId now : String)
    (pickOpp pickGame : Nat) : ApiResult × Db :=
  let registered := if db.activePlayers.contains playerId then db.activePlayers
    else db.activePlayers ++ [playerId]
  let db1 : Db := { db with activePlayers := registered }
  let games := db1.activeGames.filter (fun g => g.playerIds.contains playerId)
  let turnGames := games.filter (fun g => g.state.turn == playerId)
  if turnGames.isEmpty then
    if games.length > 10 then
      (.failure .tooManyActiveTurns, db1)
    else
      let candidates := db1.activePlayers.filter (fun p => p != playerId)
      if candidates.isEmpty then
        (.failure .noOpponent, db1)
      else
        let opponent := candidates.getD (pickOpp % candidates.length) playerId
        let newGame : Game := {
          id := newGameId
          turnId := newTurnId
          playerIds := [playerId, opponent]
          state := { board := initialBoard, turn := playerId, status := .active }
          history := []
          createdAt := now }
        let db2 : Db := { db1 with activeGames := db1.activeGames ++ [newGame] }
        (.crashed .constReassignment, db2)
  else
    (.crashed .turnIdNotDefined, db1)

/-- The handler of `POST /players/:playerId/turns/:turnId` (server.js
lines 208-426), faithful to its runtime behaviour: lines 212-213 run before
the match has been fetched and read `game.playerIds` with `game` unbound
(the only declaration of `game` is the `const` of line 238, scoped to the
later try block), so every request raises a ReferenceError before any
validation or store access and the store is never touched. -/
def submitMove (db : Db) (playerId turnId : String) (pit : Int) : ApiResult × Db :=
  (.crashed .gameNotDefined, db)

/-- The body of the same handler from its typeof-check and fetch onward
(server.js lines 227-426): what the route would do were the misplaced
denormalization block of lines 212-225 not executed first.  Validation
proceeds in the order of the source: fetch by turn token (232-241, 404),
participation (244-246, 403), turn ownership (249-251, 400), pit validity
(253-261, 400).  A valid move then runs the move logic of lines 263-297.
If the game finished, line 315 reads `updatedState` and `history` inside
their temporal dead zone while building the first emit's argument, raising a
ReferenceError: no event is published, the player records are never fetched
or updated, and the match update of line 407 is never reached.  If the game
did not finish, evaluating the `UpdateCommand` argument of lines 407-419
reads the undeclared identifier `gameId` (line 409), raising a
ReferenceError before the update is sent.  Either way the handler answers
500 and no store write happens, so the store is returned unchanged. -/
def submitMoveFromFetch (db : Db) (playerId turnId : String) (pit : Int) :
    ApiResult × Db :=
  match db.activeGames.find? (fun g => g.turnId == turnId) with
  | none => (.failure .turnNotFound, db)
  | some game =>
    if ¬ game.playerIds.contains playerId then
      (.failure .notParticipant, db)
    else if game.state.turn ≠ playerId then
      (.failure .notYourTurn, db)
    else
      let board := game.state.board
      let playerIdx := jsIndexOf playerId game.playerIds
      let isPlayer1 := playerIdx == 0
      let pitStart : Int := if isPlayer1 then 0 else 7
      let pitEnd : Int := if isPlayer1 then 5 else 12
      if pit < pitStart ∨ pit > pitEnd ∨ board.getD pit.toNat 0 = 0 then
        (.failure .invalidPit, db)
      else
        if (applyMove isPlayer1 board pit.toNat).finished then
          (.crashed .updatedStateTDZ, db)
        else
          (.crashed .gameIdNotDefined, db)

/-- Outcome carried by a finished-game event (server.js lines 464-466). -/
inductive GameResult where
  | win
  | loss
  | draw
deriving DecidableEq, Repr

/-- One server-sent event (server.js lines 489-492). -/
structure FinishedGameEvent where
  move : Move
  result : GameResult
deriving DecidableEq, Repr

/-- The pit transformation of server.js lines 481-487, applied to a
player-2 subscriber's own moves: relative pits 0-5 are mapped to absolute
7-12 and 6 to 13, anything else is left unchanged.  (This is the
relative-to-absolute direction, the same mapping as the submission
denormalization of lines 218-223.) -/
def listenerFlipPit (pit : Nat) : Nat :=
  if pit ≤ 5 then pit + 7 else if pit = 6 then 13 else pit

/-- The finished-game listener of server.js lines 455-495: for a subscriber
`playerId` and an emitted finished match, the events written to the stream —
the subscriber's own moves, transformed when the subscriber is not
`playerIds[0]`, each paired with the outcome computed by comparing the
subscriber's store to the opponent's store in the final board. -/
def handlerEvents (playerId : String) (game : Game) : List FinishedGameEvent :=
  let playerIdx := jsIndexOf playerId game.playerIds
  if playerIdx == -1 then []
  else
    let playerStoreIdx := if playerIdx == 0 then 6 else 13
    let opponentStoreIdx := if playerIdx == 0 then 13 else 6
    let playerScore := game.state.board.getD playerStoreIdx 0
    let opponentScore := game.state.board.getD opponentStoreIdx 0
    let result := if playerScore > opponentScore then GameResult.win
      else if playerScore < opponentScore then GameResult.loss
      else GameResult.draw
    (game.history.filter (fun m => m.player == playerId)).map fun m =>
      if game.playerIds.getD 0 playerId != playerId then
        { move := { m with board := flipBoard m.board, pit := listenerFlipPit m.pit },
          result := result }
      else
        { move := m, result := result }

/-- Modelled from the spec: §4.3 Perspective Normalizer, direction absolute
to side-B-relative, which the code under src/ never implements (it only
contains the relative-to-absolute direction).  Absolute pits 7-12 map to
relative 0-5, the absolute store 13 to relative 6, absolute 0-5 to relative
7-12 and absolute 6 to relative 13. -/
def specNormalizePitForB (pit : Nat) : Nat :=
  if 7 ≤ pit ∧ pit ≤ 12 then pit - 7
  else if pit = 13 then 6
  else if pit ≤ 5 then pit + 7
  else 13

/-! ## Concrete fixtures used to evaluate the handlers -/

def turnTokenA : String := "turn-token-a"

def turnTokenB : String := "turn-token-b"

def turnTokenC : String := "turn-token-c"

def gameIdA : String := "game-a"

def gameIdB : String := "game-b"

def gameIdC : String := "game-c"

def ts0 : String := "2024-01-01T00:00:00.000Z"

def emptyDb : Db := { players := [], activePlayers := [], activeGames := [] }

/-- A freshly created match between `moverId` and `opponentId`, mover to
play. -/
def activeMatch : Game := {
  id := gameIdA
  turnId := turnTokenA
  playerIds := [moverId, opponentId]
  state := { board := initialBoard, turn := moverId, status := .active }
  history := []
  createdAt := ts0 }

def dbWithMatch : Db := {
  players := []
  activePlayers := [moverId, opponentId]
  activeGames := [activeMatch] }

/-- A board (48 stones) on which side A's pit 5 holds its side's last stone:
playing it lands in the store and finishes the game. -/
def finishingBoard : List Nat := [0, 0, 0, 0, 0, 1, 16, 5, 5, 5, 5, 5, 5, 6]

def playerRecA : Player :=
  { id := moverId, score := 1200, wins := 0, losses := 0, lastPlayedAt := ts0 }

def playerRecB : Player :=
  { id := opponentId, score := 1200, wins := 0, losses := 0, lastPlayedAt := ts0 }

def finishingMatch : Game := {
  id := gameIdB
  turnId := turnTokenB
  playerIds := [moverId, opponentId]
  state := { board := finishingBoard, turn := moverId, status := .active }
  history := []
  createdAt := ts0 }

def dbFinishing : Db := {
  players := [playerRecA, playerRecB]
  activePlayers := [moverId, opponentId]
  activeGames := [finishingMatch] }

/-- A history move authored by side A (absolute pit 2). -/
def moveByA : Move := {
  turnId := turnTokenC
  board := [4, 4, 0, 5, 5, 5, 1, 4, 4, 4, 4, 4, 4, 0]
  player := moverId
  pit := 2
  timestamp := ts0 }

/-- A history move authored by side B (absolute pit 9). -/
def moveByB : Move := {
  turnId := turnTokenC
  board := [1, 0, 0, 0, 0, 0, 20, 0, 0, 5, 0, 0, 0, 22]
  player := opponentId
  pit := 9
  timestamp := ts0 }

/-- A finished match whose final board has side B ahead (28 to 20). -/
def finishedMatch : Game := {
  id := gameIdC
  turnId := turnTokenC
  playerIds := [moverId, opponentId]
  state := {
    board := [0, 0, 0, 0, 0, 0, 20, 0, 0, 0, 0, 0, 0, 28]
    turn := moverId
    status := .finished }
  history := [moveByA, moveByB]
  createdAt := ts0 }

/-- One other player polling, no games: the matchmaking creation path. -/
def dbOneActive : Db :=
  { players := [], activePlayers := [opponentId], activeGames := [] }

/-- An active match that is not the mover's turn. -/
def backlogGame : Game := {
  id := gameIdB
  turnId := turnTokenB
  playerIds := [moverId, opponentId]
  state := { board := initialBoard, turn := opponentId, status := .active }
  history := []
  createdAt := ts0 }

/-- Eleven active matches awaiting the opponent: over the ceiling of 10. -/
def dbBusy : Db := {
  players := []
  activePlayers := [opponentId]
  activeGames := List.replicate 11 backlogGame }

/-! ## Claim theorems for the orchestrator -/

/-- C2: the claim states submitMove validates in the order existence →
participation → turn ownership → pit validity, with no state mutation on a
validation failure.  The code instead reads the unfetched match object at
line 213, so every request — whatever its player, token or pit — crashes
with a ReferenceError before the first validation: an unknown turn token
does not produce the specified not-found failure.  (The store is indeed
never mutated, because the crash precedes every write.) -/
theorem submit_validation_order_defect :
    (∀ (db : Db) (playerId turnId : String) (pit : Int),
      submitMove db playerId turnId pit = (.crashed .gameNotDefined, db)) ∧
    (submitMove emptyDb moverId turnTokenA 0).1 ≠ .failure .turnNotFound :=
  ⟨fun _ _ _ _ => rfl, by decide⟩

/-- C3: the claim states a fully validated move is applied, appended to the
match history and persisted, and the operation then succeeds.  Even granting
entry at the fetch (bypassing the line-213 crash), a valid move by the
player whose turn it is reaches the persist step and crashes reading the
undeclared `gameId` at line 409: nothing is appended or persisted (the store
is unchanged) and no success is returned. -/
theorem submit_never_persists :
    submitMoveFromFetch dbWithMatch moverId turnTokenA 0
      = (.crashed .gameIdNotDefined, dbWithMatch) ∧
    (submitMoveFromFetch dbWithMatch moverId turnTokenA 0).1 ≠ .okNull := by
  constructor
  · decide
  · decide

/-- C7: the claim states that a finishing move updates both players'
records by the ELO rule.  The code's rating block (lines 319-387) is
unreachable: the finishing move's handler crashes at line 315 (temporal dead
zone read of `updatedState`) before the player records are fetched, so both
records keep their scores, counters and timestamps. -/
theorem rating_update_never_runs :
    (applyMove true finishingBoard 5).finished = true ∧
    submitMoveFromFetch dbFinishing moverId turnTokenB 5
      = (.crashed .updatedStateTDZ, dbFinishing) ∧
    (submitMoveFromFetch dbFinishing moverId turnTokenB 5).2.players
      = [playerRecA, playerRecB] := by
  refine ⟨by decide, by decide, by decide⟩

/-- C8: the listener does deliver to a subscriber only the moves they
authored, with the outcome from comparing the subscriber's store to the
opponent's (side B, 28 over 20: win) — but the chosen pit is not
re-expressed in the subscriber's normalized perspective: side B's move from
absolute pit 9 is delivered with pit 9, while its normalized perspective is
pit 2 (the line 481-487 transformation maps 0-6 to 7-13, the inverse of
what normalization requires, and leaves 7-13 unchanged). -/
theorem finish_event_pit_not_normalized :
    (handlerEvents opponentId finishedMatch).map (fun e => e.move.pit) = [9] ∧
    (handlerEvents opponentId finishedMatch).map (fun e => e.result)
      = [GameResult.win] ∧
    specNormalizePitForB 9 = 2 ∧
    (handlerEvents opponentId finishedMatch).map (fun e => e.move.pit) ≠ [2] := by
  refine ⟨by decide, by decide, by decide, by decide⟩

/-- C9: the two failure branches behave as the claim states — more than 10
active matches yields the backpressure failure with no match created, and an
empty candidate registry yields the no-opponent failure — but the creation
branch persists the new match (initial board, fresh token, caller to move,
empty history, active) and then crashes assigning to the `const`
`turnGames` at line 185: the call answers 500 and never returns the turn
token and normalized board. -/
theorem getTurn_creates_then_crashes :
    getTurn dbOneActive moverId gameIdA turnTokenA ts0 0 0
      = (.crashed .constReassignment,
        { players := []
          activePlayers := [opponentId, moverId]
          activeGames := [{
            id := gameIdA
            turnId := turnTokenA
            playerIds := [moverId, opponentId]
            state := { board := initialBoard, turn := moverId, status := .active }
            history := []
            createdAt := ts0 }] }) ∧
    (getTurn emptyDb moverId gameIdA turnTokenA ts0 0 0).1 = .failure .noOpponent ∧
    (getTurn emptyDb moverId gameIdA turnTokenA ts0 0 0).2.activeGames = [] ∧
    (getTurn dbBusy moverId gameIdA turnTokenA ts0 0 0).1
      = .failure .tooManyActiveTurns ∧
    (getTurn dbBusy moverId gameIdA turnTokenA ts0 0 0).2.activeGames
      = dbBusy.activeGames := by
  refine ⟨by decide, by decide, by decide, by decide, by decide⟩

end Mancala
